import Mathlib

/-!
Verification development for the thumbnail-generation backend.

The definitions below are a shallow embedding of the two Express
controllers of the repository:

* `ThumbnailController.ts` — the multi-model fallback controller
  (`generateThumbnail`, `tryParseBufferAsJson`, `deleteThumbnail`,
  the `stylePrompts` / `colorSchemeDescriptions` tables);
* the near-duplicate single-model SDK controller (`src/unnamed/part_000`),
  embedded under `sdk*` names.

External collaborators (the HTTP inference service, the ImageKit CDN and
the Mongo persistence layer) are modelled as explicit environment inputs,
exactly as the specification treats them.  JavaScript-specific semantics
that the source relies on (string interpolation of `undefined`, string and
object truthiness, `JSON.parse`, `Buffer.toString("utf8")`) are embedded
explicitly and commented at their definitions.
-/

/- ===================================================================
   JavaScript value helpers
   =================================================================== -/

/-- JS template-literal interpolation of a possibly-`undefined` string:
`${x}` prints `"undefined"` when `x` is `undefined`. -/
def jsTemplateOpt (o : Option String) : String :=
  match o with
  | some s => s
  | none => "undefined"

/-- JS truthiness of a possibly-`undefined` string: `undefined` and the
empty string are falsy, every other string is truthy. -/
def jsTruthyStr (o : Option String) : Bool :=
  match o with
  | some s => s ≠ ""
  | none => false

/- ===================================================================
   JSON values (the result type of JSON.parse)
   =================================================================== -/

/-- A parsed JSON value.  Numbers are kept exactly as a decimal mantissa
and exponent (value = m * 10^e), which is enough to decide JS truthiness
(a number is falsy iff it equals 0, i.e. iff m = 0). -/
inductive Json where
  | null : Json
  | bool (b : Bool) : Json
  | num (m : Int) (e : Int) : Json
  | str (s : String) : Json
  | arr (elems : List Json) : Json
  | obj (fields : List (String × Json)) : Json

/-- JS truthiness of a JSON value. -/
def Json.truthy : Json → Bool
  | .null => false
  | .bool b => b
  | .num m _ => m ≠ 0
  | .str s => s ≠ ""
  | .arr _ => true
  | .obj _ => true

/-- JS property access `j.k` on a parsed JSON value: defined (only) for
objects; for duplicate keys `JSON.parse` keeps the last occurrence, so
lookup returns the last binding.  Property access on arrays or
primitives yields `undefined`, modelled as `none`. -/
def Json.getProp (j : Json) (k : String) : Option Json :=
  match j with
  | .obj fields => ((fields.filter (fun f => f.1 = k)).getLast?).map (fun f => f.2)
  | _ => none

/-- JS truthiness of a property access that may be `undefined`. -/
def jsTruthyProp (o : Option Json) : Bool :=
  match o with
  | some j => j.truthy
  | none => false

/- ===================================================================
   Buffer.toString("utf8"): UTF-8 decoding of a byte buffer
   =================================================================== -/

/-- The Unicode replacement character U+FFFD produced by Node when a
buffer is not valid UTF-8. -/
def replChar : Char := Char.ofNat 0xFFFD

/-- One pass of UTF-8 decoding, structurally recursive on a fuel bound
(one unit of fuel per consumed byte suffices, so the wrapper below
passes the buffer length plus one). -/
def decodeUtf8Go (fuel : Nat) (l : List Nat) : List Char :=
  match fuel with
  | 0 => []
  | fuel + 1 =>
    match l with
    | [] => []
    | b1 :: rest =>
      if b1 < 0x80 then Char.ofNat b1 :: decodeUtf8Go fuel rest
      else if 0xC2 ≤ b1 ∧ b1 ≤ 0xDF then
        match rest with
        | b2 :: rest2 =>
          if 0x80 ≤ b2 ∧ b2 ≤ 0xBF then
            Char.ofNat ((b1 - 0xC0) * 64 + (b2 - 0x80)) :: decodeUtf8Go fuel rest2
          else replChar :: decodeUtf8Go fuel (b2 :: rest2)
        | [] => [replChar]
      else if 0xE0 ≤ b1 ∧ b1 ≤ 0xEF then
        match rest with
        | b2 :: b3 :: rest3 =>
          -- the first continuation range depends on the lead byte
          -- (E0: A0..BF, ED: 80..9F — excludes overlongs and surrogates)
          if ((b1 = 0xE0 ∧ 0xA0 ≤ b2 ∧ b2 ≤ 0xBF) ∨
              (b1 = 0xED ∧ 0x80 ≤ b2 ∧ b2 ≤ 0x9F) ∨
              (b1 ≠ 0xE0 ∧ b1 ≠ 0xED ∧ 0x80 ≤ b2 ∧ b2 ≤ 0xBF)) ∧
             (0x80 ≤ b3 ∧ b3 ≤ 0xBF) then
            Char.ofNat ((b1 - 0xE0) * 4096 + (b2 - 0x80) * 64 + (b3 - 0x80)) ::
              decodeUtf8Go fuel rest3
          else replChar :: decodeUtf8Go fuel (b2 :: b3 :: rest3)
        | [_] => [replChar]
        | [] => [replChar]
      else if 0xF0 ≤ b1 ∧ b1 ≤ 0xF4 then
        match rest with
        | b2 :: b3 :: b4 :: rest4 =>
          if ((b1 = 0xF0 ∧ 0x90 ≤ b2 ∧ b2 ≤ 0xBF) ∨
              (b1 = 0xF4 ∧ 0x80 ≤ b2 ∧ b2 ≤ 0x8F) ∨
              (b1 ≠ 0xF0 ∧ b1 ≠ 0xF4 ∧ 0x80 ≤ b2 ∧ b2 ≤ 0xBF)) ∧
             (0x80 ≤ b3 ∧ b3 ≤ 0xBF) ∧ (0x80 ≤ b4 ∧ b4 ≤ 0xBF) then
            Char.ofNat ((b1 - 0xF0) * 262144 + (b2 - 0x80) * 4096 +
                (b3 - 0x80) * 64 + (b4 - 0x80)) :: decodeUtf8Go fuel rest4
          else replChar :: decodeUtf8Go fuel (b2 :: b3 :: b4 :: rest4)
        | [_, _] => [replChar]
        | [_] => [replChar]
        | [] => [replChar]
      else replChar :: decodeUtf8Go fuel rest

/-- UTF-8 decoding of a byte list, as performed by
`Buffer.toString("utf8")`: well-formed sequences are decoded, malformed
bytes become U+FFFD and decoding resumes at the next byte.  Every
recursive step of `decodeUtf8Go` consumes at least one byte, so the
length-plus-one fuel never runs out. -/
def decodeUtf8Aux (l : List Nat) : List Char := decodeUtf8Go (l.length + 1) l

/-- ASCII encoding helper used to write concrete byte buffers in
theorem statements. -/
def asciiBytes (s : String) : List Nat := s.data.map Char.toNat

/- ===================================================================
   String.prototype.trim — whitespace trimming applied by
   tryParseBufferAsJson before inspecting the first character
   =================================================================== -/

/-- The whitespace characters stripped by JS `trim` (ASCII whitespace
plus NBSP and the BOM; the remaining Unicode space characters are
irrelevant to this code base). -/
def isJsWhitespaceChar (c : Char) : Bool :=
  c = ' ' ∨ c = '\t' ∨ c = '\n' ∨ c = '\r' ∨
  c = Char.ofNat 0x0B ∨ c = Char.ofNat 0x0C ∨
  c = Char.ofNat 0xA0 ∨ c = Char.ofNat 0xFEFF

/-- JS `String.prototype.trim` on a character list. -/
def jsTrimList (cs : List Char) : List Char :=
  ((cs.dropWhile isJsWhitespaceChar).reverse.dropWhile isJsWhitespaceChar).reverse

/- ===================================================================
   JSON.parse — a fuel-indexed parser for the JSON grammar
   =================================================================== -/

/-- The `{` character (written via its code point). -/
def lbraceChar : Char := Char.ofNat 123

/-- The `}` character (written via its code point). -/
def rbraceChar : Char := Char.ofNat 125

/-- The `[` character (written via its code point). -/
def lbrackChar : Char := Char.ofNat 91

/-- The `]` character (written via its code point). -/
def rbrackChar : Char := Char.ofNat 93

/-- JSON insignificant whitespace (space, tab, line feed, carriage
return — exactly the four allowed by the JSON grammar). -/
def jsonSkipWs : List Char → List Char
  | c :: cs =>
    if c = ' ' ∨ c = '\t' ∨ c = '\n' ∨ c = '\r' then jsonSkipWs cs else c :: cs
  | [] => []

/-- Hexadecimal digit value, for `\u` escapes. -/
def hexDigitVal (c : Char) : Option Nat :=
  if '0' ≤ c ∧ c ≤ '9' then some (c.toNat - 48)
  else if 'a' ≤ c ∧ c ≤ 'f' then some (c.toNat - 87)
  else if 'A' ≤ c ∧ c ≤ 'F' then some (c.toNat - 70)
  else none

/-- Parse the remainder of a JSON string literal (the opening quote has
already been consumed); returns the decoded characters and the rest of
the input.  Escapes follow the JSON grammar; an unpaired `\u` surrogate
(not representable as a Lean scalar value) degrades via `Char.ofNat`. -/
def parseJsonStringRest : List Char → Option (List Char × List Char)
  | [] => none
  | c :: cs =>
    if c = '\"' then some ([], cs)
    else if c = '\\' then
      match cs with
      | [] => none
      | e :: cs2 =>
        if e = '\"' then (parseJsonStringRest cs2).map (fun p => ('\"' :: p.1, p.2))
        else if e = '\\' then (parseJsonStringRest cs2).map (fun p => ('\\' :: p.1, p.2))
        else if e = '/' then (parseJsonStringRest cs2).map (fun p => ('/' :: p.1, p.2))
        else if e = 'b' then (parseJsonStringRest cs2).map (fun p => (Char.ofNat 8 :: p.1, p.2))
        else if e = 'f' then (parseJsonStringRest cs2).map (fun p => (Char.ofNat 12 :: p.1, p.2))
        else if e = 'n' then (parseJsonStringRest cs2).map (fun p => ('\n' :: p.1, p.2))
        else if e = 'r' then (parseJsonStringRest cs2).map (fun p => ('\r' :: p.1, p.2))
        else if e = 't' then (parseJsonStringRest cs2).map (fun p => ('\t' :: p.1, p.2))
        else if e = 'u' then
          match cs2 with
          | h1 :: h2 :: h3 :: h4 :: cs3 =>
            match hexDigitVal h1, hexDigitVal h2, hexDigitVal h3, hexDigitVal h4 with
            | some a, some b, some c3, some d =>
              (parseJsonStringRest cs3).map
                (fun p => (Char.ofNat (a * 4096 + b * 256 + c3 * 16 + d) :: p.1, p.2))
            | _, _, _, _ => none
          | _ => none
        else none
    else if c.toNat < 0x20 then none
    else (parseJsonStringRest cs).map (fun p => (c :: p.1, p.2))

/-- Read a (possibly empty) run of decimal digits. -/
def readDigits : List Char → List Nat × List Char
  | c :: cs =>
    if c.isDigit then
      let p := readDigits cs
      ((c.toNat - 48) :: p.1, p.2)
    else ([], c :: cs)
  | [] => ([], [])

/-- Fold a digit run into a natural number. -/
def digitsToNat (acc : Nat) : List Nat → Nat
  | [] => acc
  | d :: ds => digitsToNat (acc * 10 + d) ds

/-- Parse a JSON number token per the JSON grammar
(`-? int frac? exp?`, no leading zeros in the integer part). -/
def parseJsonNumber (cs : List Char) : Option (Json × List Char) :=
  let signed : Bool × List Char :=
    match cs with
    | c :: t => if c = '-' then (true, t) else (false, cs)
    | [] => (false, [])
  match signed.2 with
  | [] => none
  | c :: t =>
    if ¬ c.isDigit then none
    else
      -- integer part: a single 0, or a nonzero digit followed by digits
      let intPart : List Nat × List Char :=
        if c = '0' then ([0], t)
        else
          let p := readDigits t
          ((c.toNat - 48) :: p.1, p.2)
      -- fraction part
      let fracPart : List Nat × List Char :=
        match intPart.2 with
        | d :: t2 =>
          if d = '.' then
            let p := readDigits t2
            p
          else ([], intPart.2)
        | [] => ([], [])
      let fracBad : Bool :=
        match intPart.2 with
        | d :: _ => d = '.' ∧ fracPart.1 = []
        | [] => false
      -- exponent part
      let expPart : Option (Int × List Char) :=
        match fracPart.2 with
        | e :: t3 =>
          if e = 'e' ∨ e = 'E' then
            let esigned : Bool × List Char :=
              match t3 with
              | s :: t4 => if s = '-' then (true, t4) else if s = '+' then (false, t4) else (false, t3)
              | [] => (false, [])
            let p := readDigits esigned.2
            if p.1 = [] then none
            else
              let ev : Int := Int.ofNat (digitsToNat 0 p.1)
              some (if esigned.1 then -ev else ev, p.2)
          else some (0, fracPart.2)
        | [] => some (0, [])
      if fracBad then none
      else
        match expPart with
        | none => none
        | some (ev, rest) =>
          let mAbs : Nat := digitsToNat 0 (intPart.1 ++ fracPart.1)
          let m : Int := if signed.1 then -(Int.ofNat mAbs) else Int.ofNat mAbs
          some (.num m (ev - Int.ofNat fracPart.1.length), rest)

/-- The work items of the JSON parser: one JSON value, the members of
an object after `{`, or the elements of an array after `[` (the jobs
are mutually recursive in the grammar; a single fuel-indexed function
keeps the recursion structural). -/
inductive ParseJob where
  | value (cs : List Char)
  | members (cs : List Char) (acc : List (String × Json))
  | elements (cs : List Char) (acc : List Json)

/-- The JSON parser: `value` parses one JSON value, `members` the
members of an object (at least one; the empty object is handled in
`value`), `elements` the elements of an array.  The fuel bounds the
recursion depth; one unit per nesting/step, so any fuel of at least the
input length plus two succeeds on valid inputs. -/
def parseJsonGo (fuel : Nat) (job : ParseJob) : Option (Json × List Char) :=
  match fuel with
  | 0 => none
  | fuel + 1 =>
    match job with
    | .value cs =>
      match jsonSkipWs cs with
      | [] => none
      | c :: cs1 =>
        if c = 'n' then
          match cs1 with
          | 'u' :: 'l' :: 'l' :: r => some (.null, r)
          | _ => none
        else if c = 't' then
          match cs1 with
          | 'r' :: 'u' :: 'e' :: r => some (.bool true, r)
          | _ => none
        else if c = 'f' then
          match cs1 with
          | 'a' :: 'l' :: 's' :: 'e' :: r => some (.bool false, r)
          | _ => none
        else if c = '\"' then
          (parseJsonStringRest cs1).map (fun p => (.str (String.mk p.1), p.2))
        else if c = lbraceChar then
          match jsonSkipWs cs1 with
          | c2 :: r =>
            if c2 = rbraceChar then some (.obj [], r)
            else parseJsonGo fuel (.members (c2 :: r) [])
          | [] => none
        else if c = lbrackChar then
          match jsonSkipWs cs1 with
          | c2 :: r =>
            if c2 = rbrackChar then some (.arr [], r)
            else parseJsonGo fuel (.elements (c2 :: r) [])
          | [] => none
        else if c = '-' ∨ c.isDigit then parseJsonNumber (c :: cs1)
        else none
    | .members cs acc =>
      match jsonSkipWs cs with
      | c :: cs1 =>
        if c = '\"' then
          match parseJsonStringRest cs1 with
          | some (k, cs2) =>
            match jsonSkipWs cs2 with
            | ':' :: cs3 =>
              match parseJsonGo fuel (.value cs3) with
              | some (v, cs4) =>
                match jsonSkipWs cs4 with
                | d :: cs5 =>
                  if d = ',' then parseJsonGo fuel (.members cs5 (acc ++ [(String.mk k, v)]))
                  else if d = rbraceChar then some (.obj (acc ++ [(String.mk k, v)]), cs5)
                  else none
                | [] => none
              | none => none
            | _ => none
          | none => none
        else none
      | [] => none
    | .elements cs acc =>
      match parseJsonGo fuel (.value cs) with
      | some (v, cs1) =>
        match jsonSkipWs cs1 with
        | d :: cs2 =>
          if d = ',' then parseJsonGo fuel (.elements cs2 (acc ++ [v]))
          else if d = rbrackChar then some (.arr (acc ++ [v]), cs2)
          else none
        | [] => none
      | none => none

/-- Parse one JSON value with the given fuel. -/
def parseJsonValue (fuel : Nat) (cs : List Char) : Option (Json × List Char) :=
  parseJsonGo fuel (.value cs)

/-- `JSON.parse` on a character list: the whole input (up to trailing
JSON whitespace) must be one JSON value, otherwise the parse throws,
which callers observe as `none`. -/
def jsonParseFull (cs : List Char) : Option Json :=
  match parseJsonValue (cs.length + 2) cs with
  | some (j, rest) => if jsonSkipWs rest = [] then some j else none
  | none => none

/- ===================================================================
   tryParseBufferAsJson (ThumbnailController.ts, lines 73-85)
   =================================================================== -/

/-- `tryParseBufferAsJson`: decode the buffer as UTF-8, trim it, and if
the first character is `{` or `[` run `JSON.parse` on the trimmed text,
returning `none` on a parse error; otherwise return `none`.  The buffer
argument is `none` when the JS value is `null`/`undefined` (in which
case `Buffer.from` throws and the `catch` returns `null`). -/
def tryParseBufferAsJson (data : Option (List Nat)) : Option Json :=
  match data with
  | none => none
  | some bytes =>
    match jsTrimList (decodeUtf8Aux bytes) with
    | [] => none
    | c :: cs =>
      if c = lbraceChar ∨ c = lbrackChar then jsonParseFull (c :: cs) else none

/- ===================================================================
   Prompt configuration (ThumbnailController.ts, lines 9-38)
   =================================================================== -/

/-- The `stylePrompts` lookup table. -/
def stylePrompts : List (String × String) :=
  [("Bold & Graphic",
    "eye-catching thumbnail, bold typography, vibrant colors, expressive facial reaction, dramatic lighting, high contrast, click-worthy composition, professional style"),
   ("Tech/Futuristic",
    "futuristic thumbnail, sleek modern design, digital UI elements, glowing accents, holographic effects, cyber-tech aesthetic, sharp lighting, high-tech atmosphere"),
   ("Minimalist",
    "minimalist thumbnail, clean layout, simple shapes, limited color palette, plenty of negative space, modern flat design, clear focal point"),
   ("Photorealistic",
    "photorealistic thumbnail, ultra-realistic lighting, natural skin tones, candid moment, DSLR-style photography, lifestyle realism, shallow depth of field"),
   ("Illustrated",
    "illustrated thumbnail, custom digital illustration, stylized characters, bold outlines, vibrant colors, creative cartoon or vector art style")]

/-- The `colorSchemeDescriptions` lookup table. -/
def colorSchemeDescriptions : List (String × String) :=
  [("vibrant",
    "vibrant and energetic colors, high saturation, bold contrasts, eye-catching palette"),
   ("sunset",
    "warm sunset tones, orange pink and purple hues, soft gradients, cinematic glow"),
   ("forest",
    "natural green tones, earthy colors, calm and organic palette, fresh atmosphere"),
   ("neon",
    "neon glow effects, electric blues and pinks, cyberpunk lighting, high contrast glow"),
   ("purple",
    "purple-dominant color palette, magenta and violet tones, modern and stylish mood"),
   ("monochrome",
    "black and white color scheme, high contrast, dramatic lighting, timeless aesthetic"),
   ("ocean",
    "cool blue and teal tones, aquatic color palette, fresh and clean atmosphere"),
   ("pastel",
    "soft pastel colors, low saturation, gentle tones, calm and friendly aesthetic")]

/-- JS object indexing `table[key]` where `key` itself may be
`undefined`: yields `undefined` unless the key is present. -/
def jsLookupOpt (key : Option String) (table : List (String × String)) : Option String :=
  key.bind (fun k => List.lookup k table)

/- ===================================================================
   Prompt composition (ThumbnailController.ts, lines 116-123)
   =================================================================== -/

/-- The prompt built by `generateThumbnail`: a fixed-order concatenation
of the style description with the title, then (when the color scheme is
truthy) the color description, then (when the user prompt is truthy)
the free-text addition, then the aspect-ratio / click-through suffix.
A missing table key interpolates as the string `"undefined"`, exactly
as the JS template literal does. -/
def composePrompt (title style : String)
    (color_scheme user_prompt aspect_ratio : Option String) : String :=
  let base := "Create a " ++ jsTemplateOpt (List.lookup style stylePrompts) ++
    " for: \"" ++ title ++ "\" "
  let withColor :=
    if jsTruthyStr color_scheme then
      base ++ "Use a " ++ jsTemplateOpt (jsLookupOpt color_scheme colorSchemeDescriptions) ++
        " color scheme. "
    else base
  let withUser :=
    if jsTruthyStr user_prompt then
      withColor ++ "Additional details: " ++ jsTemplateOpt user_prompt ++ " "
    else withColor
  withUser ++ "The thumbnail should be " ++ jsTemplateOpt aspect_ratio ++
    ", visually stunning, and designed to maximize click-through rate. Make it bold, professional, and impossible to ignore."

/- ===================================================================
   Hugging Face router responses and their classification
   (ThumbnailController.ts, lines 136-189)
   =================================================================== -/

/-- One raw response of the router, as the code observes it: status
code, headers (axios lower-cases header names) and the byte payload
(`none` models a `null`/`undefined` payload). -/
structure HFResp where
  status : Nat
  headers : List (String × String)
  data : Option (List Nat)

/-- The outcome of one `callHuggingFaceRouter` invocation: either the
promise rejects (network error, timeout — `validateStatus` accepts all
HTTP statuses, so a status never rejects) or a response is returned. -/
inductive HFOutcome where
  | thrown (msg : String)
  | resp (r : HFResp)

/-- `headers[name]` on the (lower-cased) header map. -/
def headerGet (headers : List (String × String)) (name : String) : Option String :=
  (headers.find? (fun h => h.1 = name)).map (fun h => h.2)

/-- JS `String.prototype.includes` on character lists. -/
def hasSubstring (s pat : List Char) : Bool :=
  if pat.isPrefixOf s then true
  else
    match s with
    | [] => false
    | _ :: t => hasSubstring t pat

/-- `toLowerCase` on the header value, written over the character list
so that it evaluates definitionally. -/
def strToLower (s : String) : String := String.mk (s.data.map Char.toLower)

/-- `s.includes(pat)` for strings. -/
def strIncludes (s pat : String) : Bool := hasSubstring s.data pat.data

/-- PNG signature check from line 169: the first 8 bytes in hex must be
`89504e470d0a1a0a` (a shorter buffer yields a shorter hex string and
the check fails). -/
def isPng (bytes : List Nat) : Bool := bytes.take 8 = [0x89, 0x50, 0x4E, 0x47, 0x0D, 0x0A, 0x1A, 0x0A]

/-- JPEG signature check from line 170: the first 3 bytes must be `ffd8ff`. -/
def isJpeg (bytes : List Nat) : Bool := bytes.take 3 = [0xFF, 0xD8, 0xFF]

/-- `parsedJson.error || parsedJson.detail || parsedJson.message` —
the truthy-field test of line 144. -/
def errFieldTruthy (j : Json) : Bool :=
  jsTruthyProp (j.getProp "error") || jsTruthyProp (j.getProp "detail") ||
    jsTruthyProp (j.getProp "message")

/-- How the loop body classifies one response (the inline decision
sequence of lines 143-184, factored out as the spec's
"Response Classifier"). -/
inductive Classified where
  | bodyJsonError (body : Json)
  | ctJsonError (body : Option Json)
  | image (buf : List Nat)
  | unrecognized

/-- Classification steps 2-4: the JSON content-type test (line 155),
then the 2xx-with-payload image acceptance (line 166; an `ArrayBuffer`
is a truthy JS object even when empty, so the test only requires the
payload to be present), finally the fall-through of line 184. -/
def classifyRest (r : HFResp) : Classified :=
  let contentType := strToLower ((headerGet r.headers "content-type").getD "")
  if strIncludes contentType "application/json" then
    .ctJsonError (tryParseBufferAsJson r.data)
  else
    match r.data with
    | some bytes =>
      if 200 ≤ r.status ∧ r.status < 300 then
        -- both signature branches accept the buffer (lines 171-180)
        if isPng bytes || isJpeg bytes then .image bytes else .image bytes
      else .unrecognized
    | none => .unrecognized

/-- Full classification of one response: first the JSON-error-body test
of line 144 (requiring a truthy error/detail/message field), then the
remaining steps. -/
def classify (r : HFResp) : Classified :=
  match tryParseBufferAsJson r.data with
  | some j => if errFieldTruthy j then .bodyJsonError j else classifyRest r
  | none => classifyRest r

/- ===================================================================
   The model fallback loop (ThumbnailController.ts, lines 126-189)
   =================================================================== -/

/-- The `lastError` diagnostic values the loop records: a response
error with parsed body (lines 146 and 158 — both store
`{model, status, body}`), the fall-through `{model, status, headers}`
of line 184, and the per-candidate caught exception of line 187. -/
inductive LastError where
  | respErr (model : String) (status : Nat) (body : Option Json)
  | hdrsErr (model : String) (status : Nat) (headers : List (String × String))
  | exnErr (model : String) (message : String)

/-- The loop's observable result: the accepted buffer (if any), the
last recorded error, the headers of the last returned response, and a
ghost trace of the candidates actually invoked (in order), used to
state non-invocation properties. -/
structure LoopResult where
  finalBuffer : Option (List Nat)
  lastError : Option LastError
  hfHeaders : Option (List (String × String))
  invoked : List String

/-- The fallback loop over a candidate list.  `oracle m prompt` is the
outcome of `callHuggingFaceRouter(m, prompt)`.  Classified response
errors break out of the loop when the status is a non-429 4xx
(lines 147-149 and 159-161) and continue otherwise; an accepted image
breaks with the buffer; the fall-through case records the error and
continues; a thrown call is caught per-candidate and continues. -/
def runModels (oracle : String → String → HFOutcome) (prompt : String) :
    List String → Option LastError → Option (List (String × String)) →
    List String → LoopResult
  | [], le, hh, inv => ⟨none, le, hh, inv⟩
  | m :: rest, le, hh, inv =>
    match oracle m prompt with
    | .thrown msg => runModels oracle prompt rest (some (.exnErr m msg)) hh (inv ++ [m])
    | .resp r =>
      let hh' := some r.headers
      match classify r with
      | .bodyJsonError j =>
        let le' := some (.respErr m r.status (some j))
        if 400 ≤ r.status ∧ r.status < 500 ∧ r.status ≠ 429 then ⟨none, le', hh', inv ++ [m]⟩
        else runModels oracle prompt rest le' hh' (inv ++ [m])
      | .ctJsonError pj =>
        let le' := some (.respErr m r.status pj)
        if 400 ≤ r.status ∧ r.status < 500 ∧ r.status ≠ 429 then ⟨none, le', hh', inv ++ [m]⟩
        else runModels oracle prompt rest le' hh' (inv ++ [m])
      | .image buf => ⟨some buf, le, hh', inv ++ [m]⟩
      | .unrecognized =>
        runModels oracle prompt rest (some (.hdrsErr m r.status r.headers)) hh' (inv ++ [m])

/-- The hardcoded candidate list (lines 126-130). -/
def modelsToTry : List String :=
  ["stabilityai/stable-diffusion-3.5",
   "runwayml/stable-diffusion-v1-5",
   "stabilityai/stable-diffusion-xl-1024-v1-0"]

/- ===================================================================
   The persisted thumbnail record (the Thumbnail document as the
   controller creates and mutates it, lines 103-113 / 193 / 213-215)
   =================================================================== -/

/-- The persisted thumbnail record.  `image_url` is absent until the
success path sets it. -/
structure Record where
  userId : String
  title : String
  prompt_used : Option String
  user_prompt : Option String
  style : String
  aspect_ratio : Option String
  color_scheme : Option String
  text_overlay : Option String
  isGenerating : Bool
  image_url : Option String
deriving DecidableEq

/-- An exception value as the outer catch observes it: a message, and
(for axios errors carrying a response) the response. -/
structure JsError where
  message : String
  response : Option HFResp

/-- The HTTP responses the controllers produce, one constructor per
`res...json` site; `deleted` is the delete controller's confirmation. -/
inductive Response where
  | generated (thumbnail : Record)
  | genFailed (lastError : Option LastError) (hfHeaders : Option (List (String × String)))
  | uploadFailed (errMsg : String)
  | hfRouterError (status : Nat) (body : Json)
  | serverError (msg : String)
  | deleted

/-- The HTTP status of each response (`res.json` defaults to 200;
lines 196, 222, 233, 236, 250 set the others). -/
def Response.statusCode : Response → Nat
  | .generated _ => 200
  | .genFailed _ _ => 502
  | .uploadFailed _ => 500
  | .hfRouterError st _ => st
  | .serverError _ => 500
  | .deleted => 200

/- ===================================================================
   Generation orchestrator (ThumbnailController.ts, lines 90-238)
   =================================================================== -/

/-- The environment of one generation request: the validated request
body and session user, plus the behaviour of the three external
collaborators (persistence create, the router, the CDN upload) and an
optional exception injected between record creation and the loop
(modelling any JS exception raised after `Thumbnail.create`, which the
outer catch of lines 224-237 handles).  Record saves are modelled as
reliable, per the specification's resource model. -/
structure GenEnv where
  userId : String
  title : String
  user_prompt : Option String
  style : String
  aspect_ratio : Option String
  color_scheme : Option String
  text_overlay : Option String
  createFail : Option JsError
  oracle : String → String → HFOutcome
  upload : List Nat → Except String String
  exnAfterCreate : Option JsError

/-- The pending record persisted by `Thumbnail.create` (lines 103-113):
`prompt_used` is initialised to the raw user prompt and `isGenerating`
to `true`; no image URL. -/
def createdRecord (env : GenEnv) : Record :=
  { userId := env.userId
    title := env.title
    prompt_used := env.user_prompt
    user_prompt := env.user_prompt
    style := env.style
    aspect_ratio := env.aspect_ratio
    color_scheme := env.color_scheme
    text_overlay := env.text_overlay
    isGenerating := true
    image_url := none }

/-- The composed prompt of this request. -/
def genPrompt (env : GenEnv) : String :=
  composePrompt env.title env.style env.color_scheme env.user_prompt env.aspect_ratio

/-- The fallback loop as the handler runs it (initial state: no error,
no headers, nothing invoked). -/
def genLoop (env : GenEnv) : LoopResult :=
  runModels env.oracle (genPrompt env) modelsToTry none none []

/-- The outer catch handler's response (lines 230-236): when the error
carries a response with a payload that parses as JSON, reply with
`HF Router Error` and that status (`status || 500`); otherwise a plain
500 with the best-effort message (`message || "Unknown server error"`). -/
def catchResponse (e : JsError) : Response :=
  let fallback := Response.serverError (if e.message = "" then "Unknown server error" else e.message)
  match e.response with
  | some r =>
    if r.data.isSome then
      match tryParseBufferAsJson r.data with
      | some parsed => .hfRouterError (if r.status = 0 then 500 else r.status) parsed
      | none => fallback
    else fallback
  | none => fallback

/-- The observable outcome of one request: the persisted record (absent
when `Thumbnail.create` itself failed) and the HTTP response. -/
structure GenResult where
  record : Option Record
  response : Response

/-- `generateThumbnail` (fallback version).  Paths, in source order:
create fails → outer catch with no record (lines 224-237); an injected
exception after creation → outer catch finalizes the record as failed
(lines 226-229); no accepted buffer → record finalized failed, 502 with
the last error and headers (lines 192-201); upload fails → record
finalized failed, 500 (lines 218-223); otherwise URL stored,
`isGenerating` cleared and the completed record returned (lines
203-217).  Note the success path does not update `prompt_used`. -/
def generateThumbnail (env : GenEnv) : GenResult :=
  match env.createFail with
  | some e => ⟨none, catchResponse e⟩
  | none =>
    let rec0 := createdRecord env
    match env.exnAfterCreate with
    | some e => ⟨some { rec0 with isGenerating := false }, catchResponse e⟩
    | none =>
      let lr := genLoop env
      match lr.finalBuffer with
      | none => ⟨some { rec0 with isGenerating := false }, .genFailed lr.lastError lr.hfHeaders⟩
      | some buf =>
        match env.upload buf with
        | .error msg => ⟨some { rec0 with isGenerating := false }, .uploadFailed msg⟩
        | .ok url =>
          let recS := { rec0 with image_url := some url, isGenerating := false }
          ⟨some recS, .generated recS⟩

/- ===================================================================
   Delete controller (ThumbnailController.ts, lines 243-255)
   =================================================================== -/

/-- A stored thumbnail as the delete operation sees it (identity only). -/
structure StoredThumb where
  id : String
  userId : String
deriving DecidableEq

/-- Modelled from the spec: the persistence layer's delete-by-{id,owner}
operation invoked as `Thumbnail.findByIdAndDelete({ _id: id, userId })`.
The Thumbnail model module itself is not part of the sources, so the
operation follows the specification's contract: delete the record only
if it belongs to the requesting user; no error when nothing matches. -/
def findByIdAndDelete (store : List StoredThumb) (id userId : String) : List StoredThumb :=
  store.filter (fun t => ¬(t.id = id ∧ t.userId = userId))

/-- `deleteThumbnail`: run the owner-scoped delete and reply with the
fixed success confirmation (line 250) regardless of whether a record
matched. -/
def deleteThumbnail (store : List StoredThumb) (id userId : String) :
    List StoredThumb × Response :=
  (findByIdAndDelete store id userId, .deleted)

/- ===================================================================
   The single-model SDK controller (src/unnamed/part_000)
   =================================================================== -/

/-- The prompt built by the SDK controller (part_000, lines 62-73):
identical tables and ordering, but a different aspect-ratio suffix. -/
def sdkComposePrompt (title style : String)
    (color_scheme user_prompt aspect_ratio : Option String) : String :=
  let base := "Create a " ++ jsTemplateOpt (List.lookup style stylePrompts) ++
    " for: \"" ++ title ++ "\" "
  let withColor :=
    if jsTruthyStr color_scheme then
      base ++ "Use a " ++ jsTemplateOpt (jsLookupOpt color_scheme colorSchemeDescriptions) ++
        " color scheme. "
    else base
  let withUser :=
    if jsTruthyStr user_prompt then
      withColor ++ "Additional details: " ++ jsTemplateOpt user_prompt ++ " "
    else withColor
  withUser ++ "Compose the image for a " ++ jsTemplateOpt aspect_ratio ++
    " aspect ratio. Make it visually stunning and designed to maximize click-through rate. Bold, professional, and impossible to ignore."

/-- The environment of one SDK-controller request: request fields plus
the outcomes of `Thumbnail.create`, `client.textToImage` (bytes of the
returned blob, or a rejection), `imagekit.upload`, and the final
`thumbnail.save()` (a save that throws leaves the stored document
unchanged). -/
structure SdkEnv where
  userId : String
  title : String
  user_prompt : Option String
  style : String
  aspect_ratio : Option String
  color_scheme : Option String
  text_overlay : Option String
  createFail : Option String
  inference : String → Except String (List Nat)
  upload : List Nat → Except String String
  saveFail : Option String

/-- The pending record created by the SDK controller (part_000,
lines 49-59) — the same shape as the fallback controller's. -/
def sdkCreatedRecord (env : SdkEnv) : Record :=
  { userId := env.userId
    title := env.title
    prompt_used := env.user_prompt
    user_prompt := env.user_prompt
    style := env.style
    aspect_ratio := env.aspect_ratio
    color_scheme := env.color_scheme
    text_overlay := env.text_overlay
    isGenerating := true
    image_url := none }

/-- The SDK controller's composed prompt. -/
def sdkPromptOf (env : SdkEnv) : String :=
  sdkComposePrompt env.title env.style env.color_scheme env.user_prompt env.aspect_ratio

/-- `generateThumbnail` of the SDK controller (part_000, lines 37-115):
one straight-line try block — create the pending record, run inference,
upload, then store URL, final prompt and `isGenerating := false` in one
save.  Its catch (lines 111-114) only replies 500: a failure after
creation leaves the stored record pending (`isGenerating = true`). -/
def sdkGenerateThumbnail (env : SdkEnv) : GenResult :=
  match env.createFail with
  | some msg => ⟨none, .serverError msg⟩
  | none =>
    let rec0 := sdkCreatedRecord env
    match env.inference (sdkPromptOf env) with
    | .error msg => ⟨some rec0, .serverError msg⟩
    | .ok bytes =>
      match env.upload bytes with
      | .error msg => ⟨some rec0, .serverError msg⟩
      | .ok url =>
        match env.saveFail with
        | some msg => ⟨some rec0, .serverError msg⟩
        | none =>
          let recS := { rec0 with
            image_url := some url
            prompt_used := some (sdkPromptOf env)
            isGenerating := false }
          ⟨some recS, .generated recS⟩

/- ===================================================================
   The Response Classifier policy as the specification states it
   (spec section 4.3), for comparison with the code's classification
   =================================================================== -/

/-- The specification's three classification outcomes: an error
detected from the payload or content type (steps 1-2), an accepted
image (step 3), or the final opaque-error fall-through (step 4). -/
inductive SpecClass where
  | errorResp
  | image
  | otherError
deriving DecidableEq

/-- The specification's category of each code classification. -/
def Classified.toSpec : Classified → SpecClass
  | .bodyJsonError _ => .errorResp
  | .ctJsonError _ => .errorResp
  | .image _ => .image
  | .unrecognized => .otherError

/-- Step-1 field test of the claimed policy: as stated, the claim only
requires an error/detail/message field to be present; the amended
version requires the field to be truthy, as the code tests. -/
def policyFieldHit (asStated : Bool) (j : Json) : Bool :=
  if asStated then
    (j.getProp "error").isSome || (j.getProp "detail").isSome ||
      (j.getProp "message").isSome
  else errFieldTruthy j

/-- Step-3 buffer test of the claimed policy: as stated, the claim
requires a non-empty buffer; the amended version only requires the
payload to be present (an `ArrayBuffer` is truthy even when empty). -/
def policyBufOk (asStated : Bool) (r : HFResp) : Bool :=
  if asStated then
    match r.data with
    | some bytes => bytes ≠ []
    | none => false
  else r.data.isSome

/-- Steps 2-4 of the claimed policy: a JSON content type is an error;
else a 2xx status with an acceptable buffer is an image; every
remaining case is the opaque error. -/
def responsePolicyRest (asStated : Bool) (r : HFResp) : SpecClass :=
  if strIncludes (strToLower ((headerGet r.headers "content-type").getD ""))
      "application/json" then .errorResp
  else if 200 ≤ r.status ∧ r.status < 300 ∧ policyBufOk asStated r = true then .image
  else .otherError

/-- The claimed decision policy, written from the claim's own words and
applied in the stated order: a buffer whose leading non-whitespace
character is `{` or `[` that parses as JSON with a matching
error/detail/message field is an error; otherwise steps 2-4 apply.
`asStated = true` is the policy exactly as claimed, `asStated = false`
the amended policy matching the code (see `policyFieldHit` and
`policyBufOk`). -/
def responsePolicy (asStated : Bool) (r : HFResp) : SpecClass :=
  match r.data with
  | some bytes =>
    match jsTrimList (decodeUtf8Aux bytes) with
    | c :: cs =>
      if c = lbraceChar ∨ c = lbrackChar then
        match jsonParseFull (c :: cs) with
        | some j =>
          if policyFieldHit asStated j then .errorResp
          else responsePolicyRest asStated r
        | none => responsePolicyRest asStated r
      else responsePolicyRest asStated r
    | [] => responsePolicyRest asStated r
  | none => responsePolicyRest asStated r

/- ===================================================================
   Helper lemmas about the classification
   =================================================================== -/

/-- `classifyRest` can only yield the content-type error (with the
payload's parse result as body), an accepted image (the payload bytes),
or the fall-through. -/
theorem classifyRest_spec (r : HFResp) :
    classifyRest r = .ctJsonError (tryParseBufferAsJson r.data) ∨
    (∃ bytes, r.data = some bytes ∧ classifyRest r = .image bytes) ∨
    classifyRest r = .unrecognized := by
  unfold classifyRest
  by_cases hct : strIncludes (strToLower ((headerGet r.headers "content-type").getD "")) "application/json" = true
  · left
    simp [hct]
  · right
    simp [hct]
    cases hd : r.data with
    | none => right; rfl
    | some bytes =>
      by_cases hst : 200 ≤ r.status ∧ r.status < 300
      · left
        exact ⟨bytes, rfl, by simp [hst, ite_self]⟩
      · right
        simp [hst]

/-- In the JSON-error-body branch, the recorded body is exactly the
parse result of the payload. -/
theorem classify_bodyJsonError_parse {r : HFResp} {j : Json}
    (h : classify r = .bodyJsonError j) : tryParseBufferAsJson r.data = some j := by
  have hrest : ∀ j0 : Json, classifyRest r ≠ .bodyJsonError j0 := by
    intro j0 hx
    rcases classifyRest_spec r with hc | ⟨b, _, hc⟩ | hc <;> rw [hc] at hx <;> exact Classified.noConfusion hx
  unfold classify at h
  cases hp : tryParseBufferAsJson r.data with
  | none =>
    rw [hp] at h
    exact absurd h (hrest j)
  | some j0 =>
    rw [hp] at h
    by_cases ht : errFieldTruthy j0 = true
    · simp [ht] at h
      rw [h]
    · simp [ht] at h
      exact absurd h (hrest j)

/-- In the content-type branch, the recorded body is the parse result
of the payload. -/
theorem classify_ctJsonError_parse {r : HFResp} {pj : Option Json}
    (h : classify r = .ctJsonError pj) : pj = tryParseBufferAsJson r.data := by
  have hrest : classifyRest r = .ctJsonError pj → pj = tryParseBufferAsJson r.data := by
    intro hx
    rcases classifyRest_spec r with hc | ⟨b, _, hc⟩ | hc <;> rw [hc] at hx
    · cases hx
      rfl
    · exact Classified.noConfusion hx
    · exact Classified.noConfusion hx
  unfold classify at h
  cases hp : tryParseBufferAsJson r.data with
  | none =>
    rw [hp] at h
    rw [hrest h, hp]
  | some j0 =>
    rw [hp] at h
    by_cases ht : errFieldTruthy j0 = true
    · simp [ht] at h
    · simp [ht] at h
      rw [hrest h, hp]

/-- Whether a classification is a JSON-detected response error
(classification steps 1-2, the only branches the loop's non-retryable
test applies to). -/
def Classified.isRespError : Classified → Bool
  | .bodyJsonError _ => true
  | .ctJsonError _ => true
  | _ => false

/- ===================================================================
   Claim C1 — non-retryable errors and the fallback loop
   =================================================================== -/

/-- C1 (counterexample): the claim says every response classified as an
error with a non-429 4xx status stops the loop.  But a 404 whose body
is not JSON and whose content type is not JSON reaches only the
fall-through classification (an opaque error per the spec's
classifier), and the loop then invokes the second candidate. -/
theorem fallbackLoop_opaque_4xx_continues_counterexample :
    responsePolicy true
      ⟨404, [("content-type", "text/html")], some (asciiBytes "Not Found")⟩ =
      SpecClass.otherError ∧
    (classify ⟨404, [("content-type", "text/html")], some (asciiBytes "Not Found")⟩).toSpec =
      SpecClass.otherError ∧
    (runModels
      (fun m _ =>
        if m = "model-a" then
          .resp ⟨404, [("content-type", "text/html")], some (asciiBytes "Not Found")⟩
        else
          .resp ⟨200, [("content-type", "image/png")],
            some [0x89, 0x50, 0x4E, 0x47, 0x0D, 0x0A, 0x1A, 0x0A]⟩)
      "prompt" ["model-a", "model-b"] none none []).invoked = ["model-a", "model-b"] :=
  ⟨rfl, rfl, rfl⟩

/-- C1 (amended): when a candidate's response is classified as an error
through the JSON-body or JSON-content-type step and its status is a
non-429 4xx, the loop stops at that candidate: no remaining model is
invoked and that error (model, status, parsed body) is the recorded
last error. -/
theorem fallbackLoop_nonretryable_json_error_stops
    (oracle : String → String → HFOutcome) (prompt m : String) (rest : List String)
    (le : Option LastError) (hh : Option (List (String × String))) (inv : List String)
    (r : HFResp)
    (hcall : oracle m prompt = .resp r)
    (hclass : (classify r).isRespError = true)
    (h4 : 400 ≤ r.status) (h5 : r.status < 500) (h6 : r.status ≠ 429) :
    runModels oracle prompt (m :: rest) le hh inv =
      ⟨none, some (.respErr m r.status (tryParseBufferAsJson r.data)),
        some r.headers, inv ++ [m]⟩ := by
  cases hc : classify r with
  | bodyJsonError j =>
    have hj := classify_bodyJsonError_parse hc
    simp [runModels, hcall, hc, hj, h4, h5, h6]
  | ctJsonError pj =>
    have hj := classify_ctJsonError_parse hc
    simp [runModels, hcall, hc, hj, h4, h5, h6]
  | image buf => rw [hc] at hclass; exact absurd hclass (by simp [Classified.isRespError])
  | unrecognized => rw [hc] at hclass; exact absurd hclass (by simp [Classified.isRespError])

/-- C1 (witness): a concrete JSON-bodied 404 on the first candidate
stops the loop — the second candidate is never invoked and the 404 is
the recorded error. -/
theorem fallbackLoop_nonretryable_json_error_stops_witness :
    (classify ⟨404, [("content-type", "application/json")],
        some (asciiBytes "\x7b\"error\":\"Not Found\"\x7d")⟩).isRespError = true ∧
    runModels
      (fun m _ =>
        if m = "model-a" then
          .resp ⟨404, [("content-type", "application/json")],
            some (asciiBytes "\x7b\"error\":\"Not Found\"\x7d")⟩
        else .thrown "second candidate must not be called")
      "prompt" ["model-a", "model-b"] none none [] =
      ⟨none,
        some (.respErr "model-a" 404
          (tryParseBufferAsJson (some (asciiBytes "\x7b\"error\":\"Not Found\"\x7d")))),
        some [("content-type", "application/json")], ["model-a"]⟩ :=
  ⟨by rfl,
    fallbackLoop_nonretryable_json_error_stops _ "prompt" "model-a" ["model-b"] none none []
      ⟨404, [("content-type", "application/json")],
        some (asciiBytes "\x7b\"error\":\"Not Found\"\x7d")⟩
      (by rfl) (by rfl) (by decide) (by decide) (by decide)⟩

/- ===================================================================
   Claim C5 — retryable errors continue, first image stops
   =================================================================== -/

/-- The retryable outcomes the claim lists for one candidate: a caught
per-candidate exception, or a response classified as an error (JSON
body / JSON content type) with a 5xx or 429 status. -/
def RetryableOutcome (oracle : String → String → HFOutcome) (prompt m : String) : Prop :=
  (∃ msg, oracle m prompt = .thrown msg) ∨
  (∃ r, oracle m prompt = .resp r ∧ (classify r).isRespError = true ∧
    (500 ≤ r.status ∨ r.status = 429))

/-- A retryable candidate never terminates the loop: the loop proceeds
to the remaining candidates with some recorded error (and the exception
case is absorbed, never propagated). -/
theorem runModels_retryable_step
    {oracle : String → String → HFOutcome} {prompt m : String}
    (h : RetryableOutcome oracle prompt m)
    (rest : List String) (le : Option LastError)
    (hh : Option (List (String × String))) (inv : List String) :
    ∃ le' hh', runModels oracle prompt (m :: rest) le hh inv =
      runModels oracle prompt rest le' hh' (inv ++ [m]) := by
  rcases h with ⟨msg, hm⟩ | ⟨r, hm, hcl, hst⟩
  · exact ⟨some (.exnErr m msg), hh, by simp [runModels, hm]⟩
  · have hcond : ¬(400 ≤ r.status ∧ r.status < 500 ∧ r.status ≠ 429) := by
      rintro ⟨a, b, c⟩
      rcases hst with h5 | h5
      · omega
      · exact c h5
    cases hc : classify r with
    | bodyJsonError j =>
      exact ⟨some (.respErr m r.status (some j)), some r.headers,
        by simp [runModels, hm, hc, hcond]⟩
    | ctJsonError pj =>
      exact ⟨some (.respErr m r.status pj), some r.headers,
        by simp [runModels, hm, hc, hcond]⟩
    | image buf => rw [hc] at hcl; exact absurd hcl (by simp [Classified.isRespError])
    | unrecognized => rw [hc] at hcl; exact absurd hcl (by simp [Classified.isRespError])

/-- C5: with the first two candidates retryable (5xx, 429 or a caught
exception) and the third classified as an image, the loop tries the
candidates in list order, continues past the first two, accepts the
third candidate's byte buffer and invokes no later candidate. -/
theorem fallbackLoop_retryable_then_image
    (oracle : String → String → HFOutcome) (prompt m1 m2 m3 : String)
    (rest : List String) (r3 : HFResp) (buf : List Nat)
    (h1 : RetryableOutcome oracle prompt m1)
    (h2 : RetryableOutcome oracle prompt m2)
    (h3 : oracle m3 prompt = .resp r3)
    (h3c : classify r3 = .image buf) :
    (runModels oracle prompt (m1 :: m2 :: m3 :: rest) none none []).finalBuffer = some buf ∧
    (runModels oracle prompt (m1 :: m2 :: m3 :: rest) none none []).invoked = [m1, m2, m3] := by
  obtain ⟨le1, hh1, e1⟩ := runModels_retryable_step h1 (m2 :: m3 :: rest) none none []
  obtain ⟨le2, hh2, e2⟩ := runModels_retryable_step h2 (m3 :: rest) le1 hh1 ([] ++ [m1])
  rw [e1, e2]
  simp [runModels, h3, h3c]

/-- C5 (witness): the concrete classified sequence
[error(500), error(429), image] over four candidates — the image from
the third candidate is accepted and the fourth is never invoked. -/
theorem fallbackLoop_retryable_then_image_witness :
    (runModels
      (fun m _ =>
        if m = "model-a" then .resp ⟨500, [], some (asciiBytes "\x7b\"error\":\"boom\"\x7d")⟩
        else if m = "model-b" then .resp ⟨429, [], some (asciiBytes "\x7b\"error\":\"rate limited\"\x7d")⟩
        else if m = "model-c" then
          .resp ⟨200, [("content-type", "image/png")], some [0xFF, 0xD8, 0xFF, 0x00]⟩
        else .thrown "fourth candidate must not be called")
      "prompt" ["model-a", "model-b", "model-c", "model-d"] none none []).finalBuffer =
        some [0xFF, 0xD8, 0xFF, 0x00] ∧
    (runModels
      (fun m _ =>
        if m = "model-a" then .resp ⟨500, [], some (asciiBytes "\x7b\"error\":\"boom\"\x7d")⟩
        else if m = "model-b" then .resp ⟨429, [], some (asciiBytes "\x7b\"error\":\"rate limited\"\x7d")⟩
        else if m = "model-c" then
          .resp ⟨200, [("content-type", "image/png")], some [0xFF, 0xD8, 0xFF, 0x00]⟩
        else .thrown "fourth candidate must not be called")
      "prompt" ["model-a", "model-b", "model-c", "model-d"] none none []).invoked =
        ["model-a", "model-b", "model-c"] :=
  fallbackLoop_retryable_then_image _ "prompt" "model-a" "model-b" "model-c" ["model-d"]
    ⟨200, [("content-type", "image/png")], some [0xFF, 0xD8, 0xFF, 0x00]⟩
    [0xFF, 0xD8, 0xFF, 0x00]
    (Or.inr ⟨⟨500, [], some (asciiBytes "\x7b\"error\":\"boom\"\x7d")⟩, rfl, by rfl, by decide⟩)
    (Or.inr ⟨⟨429, [], some (asciiBytes "\x7b\"error\":\"rate limited\"\x7d")⟩, rfl, by rfl, by decide⟩)
    rfl (by rfl)

/- ===================================================================
   Path lemmas for the generation orchestrator
   =================================================================== -/

/-- When `Thumbnail.create` fails, no record exists and the outer catch
produces the response. -/
theorem generateThumbnail_createFail (env : GenEnv) (e : JsError)
    (hc : env.createFail = some e) :
    generateThumbnail env = ⟨none, catchResponse e⟩ := by
  simp [generateThumbnail, hc]

/-- An exception after record creation reaches the outer catch, which
finalizes the record as failed before responding. -/
theorem generateThumbnail_exnAfterCreate (env : GenEnv) (e : JsError)
    (hc : env.createFail = none) (hx : env.exnAfterCreate = some e) :
    generateThumbnail env =
      ⟨some { createdRecord env with isGenerating := false }, catchResponse e⟩ := by
  simp [generateThumbnail, hc, hx]

/-- When the loop yields no buffer, the record is finalized as failed
and the 502 response carries the loop's last error and headers. -/
theorem generateThumbnail_noBuffer (env : GenEnv)
    (hc : env.createFail = none) (hx : env.exnAfterCreate = none)
    (hb : (genLoop env).finalBuffer = none) :
    generateThumbnail env =
      ⟨some { createdRecord env with isGenerating := false },
        .genFailed (genLoop env).lastError (genLoop env).hfHeaders⟩ := by
  simp [generateThumbnail, hc, hx, hb]

/-- When the upload of the accepted buffer fails, the record is
finalized as failed and the response is the upload-specific 500. -/
theorem generateThumbnail_uploadFail (env : GenEnv) (buf : List Nat) (msg : String)
    (hc : env.createFail = none) (hx : env.exnAfterCreate = none)
    (hb : (genLoop env).finalBuffer = some buf) (hu : env.upload buf = .error msg) :
    generateThumbnail env =
      ⟨some { createdRecord env with isGenerating := false }, .uploadFailed msg⟩ := by
  simp [generateThumbnail, hc, hx, hb, hu]

/-- When the upload succeeds, the record receives the URL and
`isGenerating := false` and is returned in the success response. -/
theorem generateThumbnail_success (env : GenEnv) (buf : List Nat) (url : String)
    (hc : env.createFail = none) (hx : env.exnAfterCreate = none)
    (hb : (genLoop env).finalBuffer = some buf) (hu : env.upload buf = .ok url) :
    generateThumbnail env =
      ⟨some { createdRecord env with image_url := some url, isGenerating := false },
        .generated { createdRecord env with image_url := some url, isGenerating := false }⟩ := by
  simp [generateThumbnail, hc, hx, hb, hu]

/- ===================================================================
   Claim C2 — every completed request finalizes the record
   =================================================================== -/

/-- C2: whatever the environment does, if the request left a persisted
record then that record has `isGenerating = false`, and it carries an
image URL exactly when the request reached the success finalization
(no failure before the loop, an accepted buffer, and a successful
upload) — so in-progress=false with no URL is precisely a failed
generation and in-progress=false with a URL precisely a successful one. -/
theorem generateThumbnail_record_finalized (env : GenEnv) (rec : Record)
    (h : (generateThumbnail env).record = some rec) :
    rec.isGenerating = false ∧
    (rec.image_url.isSome = true ↔
      env.createFail = none ∧ env.exnAfterCreate = none ∧
      ∃ buf url, (genLoop env).finalBuffer = some buf ∧ env.upload buf = .ok url) := by
  cases hc : env.createFail with
  | some e =>
    rw [generateThumbnail_createFail env e hc] at h
    exact absurd h (by simp)
  | none =>
    cases hx : env.exnAfterCreate with
    | some e =>
      rw [generateThumbnail_exnAfterCreate env e hc hx] at h
      obtain rfl : rec = { createdRecord env with isGenerating := false } :=
        (Option.some.inj h).symm
      refine ⟨rfl, ?_⟩
      simp [createdRecord]
    | none =>
      cases hb : (genLoop env).finalBuffer with
      | none =>
        rw [generateThumbnail_noBuffer env hc hx hb] at h
        obtain rfl : rec = { createdRecord env with isGenerating := false } :=
          (Option.some.inj h).symm
        refine ⟨rfl, ?_⟩
        simp only [createdRecord, Option.isSome_none, Bool.false_eq_true, false_iff]
        rintro ⟨-, -, buf, url, hb', -⟩
        exact Option.noConfusion hb'
      | some buf =>
        cases hu : env.upload buf with
        | error msg =>
          rw [generateThumbnail_uploadFail env buf msg hc hx hb hu] at h
          obtain rfl : rec = { createdRecord env with isGenerating := false } :=
            (Option.some.inj h).symm
          refine ⟨rfl, ?_⟩
          simp only [createdRecord, Option.isSome_none, Bool.false_eq_true, false_iff]
          rintro ⟨-, -, buf', url, hb', hu'⟩
          obtain rfl : buf = buf' := Option.some.inj hb'
          rw [hu'] at hu
          exact Except.noConfusion hu
        | ok url =>
          rw [generateThumbnail_success env buf url hc hx hb hu] at h
          obtain rfl :
              rec = { createdRecord env with image_url := some url, isGenerating := false } :=
            (Option.some.inj h).symm
          refine ⟨rfl, ?_⟩
          simp only [createdRecord, Option.isSome_some, true_iff]
          exact ⟨by simp, by simp, buf, url, rfl, hu⟩

/-- A concrete environment whose request succeeds end to end. -/
def successEnv : GenEnv :=
  { userId := "user-1"
    title := "My Title"
    user_prompt := some "orig"
    style := "Minimalist"
    aspect_ratio := some "16:9"
    color_scheme := some "neon"
    text_overlay := none
    createFail := none
    oracle := fun _ _ => .resp ⟨200, [("content-type", "image/png")], some [0xFF, 0xD8, 0xFF, 9]⟩
    upload := fun _ => .ok "https://cdn.example/x.png"
    exnAfterCreate := none }

/-- The record the successful request persists. -/
def successRecord : Record :=
  { userId := "user-1"
    title := "My Title"
    prompt_used := some "orig"
    user_prompt := some "orig"
    style := "Minimalist"
    aspect_ratio := some "16:9"
    color_scheme := some "neon"
    text_overlay := none
    isGenerating := false
    image_url := some "https://cdn.example/x.png" }

/-- C2 (witness): the invariant instantiated on the concrete successful
request. -/
theorem generateThumbnail_record_finalized_witness :
    (generateThumbnail successEnv).record = some successRecord ∧
    successRecord.isGenerating = false ∧
    (successRecord.image_url.isSome = true ↔
      successEnv.createFail = none ∧ successEnv.exnAfterCreate = none ∧
      ∃ buf url, (genLoop successEnv).finalBuffer = some buf ∧
        successEnv.upload buf = .ok url) :=
  ⟨rfl, (generateThumbnail_record_finalized successEnv successRecord rfl).1,
    (generateThumbnail_record_finalized successEnv successRecord rfl).2⟩

/- ===================================================================
   Claim C3 — the success finalization
   =================================================================== -/

/-- C3 (counterexample): on a concrete end-to-end success the response
is the 200 success carrying the record, but the persisted record's
`prompt_used` is still the raw user prompt captured at creation — the
final composed prompt (which differs from it) is never stored. -/
theorem generateThumbnail_success_prompt_counterexample :
    (generateThumbnail successEnv).response.statusCode = 200 ∧
    (generateThumbnail successEnv).record.map Record.prompt_used = some (some "orig") ∧
    genPrompt successEnv ≠ "orig" :=
  ⟨rfl, rfl, by decide⟩

/-- C3 (amended): when the fallback loop accepts an image and the
upload succeeds, the orchestrator stores the returned URL on the
record, sets in-progress to false and responds 200 with that completed
record — but it does not store the composed prompt: `prompt_used`
keeps the raw user prompt set at creation. -/
theorem generateThumbnail_success_finalization (env : GenEnv) (buf : List Nat) (url : String)
    (hc : env.createFail = none) (hx : env.exnAfterCreate = none)
    (hb : (genLoop env).finalBuffer = some buf) (hu : env.upload buf = .ok url) :
    ∃ rec, (generateThumbnail env).record = some rec ∧
      (generateThumbnail env).response = .generated rec ∧
      ((generateThumbnail env).response).statusCode = 200 ∧
      rec.image_url = some url ∧
      rec.isGenerating = false ∧
      rec.prompt_used = env.user_prompt := by
  rw [generateThumbnail_success env buf url hc hx hb hu]
  exact ⟨_, rfl, rfl, rfl, rfl, rfl, rfl⟩

/-- C3 (witness): the amended success finalization on the concrete
successful environment. -/
theorem generateThumbnail_success_finalization_witness :
    ∃ rec, (generateThumbnail successEnv).record = some rec ∧
      (generateThumbnail successEnv).response = .generated rec ∧
      ((generateThumbnail successEnv).response).statusCode = 200 ∧
      rec.image_url = some "https://cdn.example/x.png" ∧
      rec.isGenerating = false ∧
      rec.prompt_used = successEnv.user_prompt :=
  generateThumbnail_success_finalization successEnv [0xFF, 0xD8, 0xFF, 9]
    "https://cdn.example/x.png" rfl rfl rfl rfl

/- ===================================================================
   Claim C4 — all candidates fail
   =================================================================== -/

/-- C4: when no candidate model yields an accepted image, the record is
persisted with in-progress false and no image URL, and the response is
the 502 carrying the loop's last recorded diagnostic error (and the
last response headers). -/
theorem generateThumbnail_all_models_fail (env : GenEnv)
    (hc : env.createFail = none) (hx : env.exnAfterCreate = none)
    (hb : (genLoop env).finalBuffer = none) :
    ∃ rec, (generateThumbnail env).record = some rec ∧
      rec.isGenerating = false ∧
      rec.image_url = none ∧
      (generateThumbnail env).response =
        .genFailed (genLoop env).lastError (genLoop env).hfHeaders ∧
      ((generateThumbnail env).response).statusCode = 502 := by
  rw [generateThumbnail_noBuffer env hc hx hb]
  exact ⟨_, rfl, rfl, rfl, rfl, rfl⟩

/-- A concrete environment in which every candidate's call rejects. -/
def allFailEnv : GenEnv :=
  { successEnv with oracle := fun _ _ => .thrown "network error" }

/-- C4 (witness): the all-models-failed contract on the concrete
environment whose three candidate calls all reject. -/
theorem generateThumbnail_all_models_fail_witness :
    ∃ rec, (generateThumbnail allFailEnv).record = some rec ∧
      rec.isGenerating = false ∧
      rec.image_url = none ∧
      (generateThumbnail allFailEnv).response =
        .genFailed (genLoop allFailEnv).lastError (genLoop allFailEnv).hfHeaders ∧
      ((generateThumbnail allFailEnv).response).statusCode = 502 :=
  generateThumbnail_all_models_fail allFailEnv rfl rfl rfl

/- ===================================================================
   Claim C6 — the classifier follows the stated decision policy
   =================================================================== -/

/-- The spec category of classification steps 2-4 matches the amended
policy's steps 2-4. -/
theorem classifyRest_toSpec (r : HFResp) :
    (classifyRest r).toSpec = responsePolicyRest false r := by
  unfold classifyRest responsePolicyRest policyBufOk
  by_cases hct : strIncludes (strToLower ((headerGet r.headers "content-type").getD ""))
      "application/json" = true
  · simp [hct, Classified.toSpec]
  · simp only [hct, Bool.false_eq_true, if_false]
    cases hd : r.data with
    | none => simp [Classified.toSpec]
    | some bytes =>
      by_cases hst : 200 ≤ r.status ∧ r.status < 300
      · simp [hst, ite_self, Classified.toSpec]
      · simp [hst, Classified.toSpec]

/-- C6 (amended): for every (buffer, headers, status) input the code's
classification follows the stated decision order with the two amended
conditions: step 1 fires only for a truthy error/detail/message field,
and step 3 accepts any 2xx response whose payload is present, including
an empty buffer (an unrecognized PNG/JPEG signature is still accepted);
every remaining case is the opaque error. -/
theorem classify_follows_policy_amended (r : HFResp) :
    (classify r).toSpec = responsePolicy false r := by
  have hrest := classifyRest_toSpec r
  unfold classify tryParseBufferAsJson responsePolicy
  cases hd : r.data with
  | none => simpa using hrest
  | some bytes =>
    dsimp only
    cases ht : jsTrimList (decodeUtf8Aux bytes) with
    | nil => simpa using hrest
    | cons c cs =>
      dsimp only
      by_cases hbr : c = lbraceChar ∨ c = lbrackChar
      · simp only [hbr, if_true]
        cases hj : jsonParseFull (c :: cs) with
        | none => simpa using hrest
        | some j =>
          dsimp only
          by_cases he : errFieldTruthy j = true
          · simp [he, policyFieldHit, Classified.toSpec]
          · simpa [he, policyFieldHit] using hrest
      · simp only [hbr, if_false]
        simpa using hrest

/-- C6 (counterexample): two inputs where the code departs from the
policy as stated.  A 200 response whose body is JSON with a present
but falsy "error" field is accepted as an image by the code (the truthy
test fails) while the stated policy classifies it as an error; and a
200 response with an empty buffer is accepted as an image by the code
(an empty `ArrayBuffer` is still truthy) while the stated policy's
non-empty requirement makes it an opaque error. -/
theorem classify_policy_counterexample :
    (classify ⟨200, [], some (asciiBytes "\x7b\"error\":\"\"\x7d")⟩).toSpec =
      SpecClass.image ∧
    responsePolicy true ⟨200, [], some (asciiBytes "\x7b\"error\":\"\"\x7d")⟩ =
      SpecClass.errorResp ∧
    (classify ⟨200, [], some []⟩).toSpec = SpecClass.image ∧
    responsePolicy true ⟨200, [], some []⟩ = SpecClass.otherError :=
  ⟨rfl, rfl, rfl, rfl⟩

/-- C6 (witness): the amended policy agreement evaluated at a concrete
JSON-error response. -/
theorem classify_follows_policy_amended_witness :
    (classify ⟨503, [("content-type", "application/json")],
        some (asciiBytes "\x7b\"error\":\"busy\"\x7d")⟩).toSpec =
      responsePolicy false ⟨503, [("content-type", "application/json")],
        some (asciiBytes "\x7b\"error\":\"busy\"\x7d")⟩ :=
  classify_follows_policy_amended _

/- ===================================================================
   Claim C7 — owner-scoped, idempotent delete
   =================================================================== -/

/-- C7: for every store, record id and requesting user, the delete
operation replies with the fixed success confirmation (HTTP 200)
regardless of whether anything matched; it never removes a record not
owned by the requester, never adds records, and no record matching the
requested id and owner survives. -/
theorem deleteThumbnail_owner_scoped_idempotent
    (store : List StoredThumb) (id userId : String) :
    (deleteThumbnail store id userId).2 = .deleted ∧
    ((deleteThumbnail store id userId).2).statusCode = 200 ∧
    (∀ t, t ∈ store → t.userId ≠ userId → t ∈ (deleteThumbnail store id userId).1) ∧
    (∀ t, t ∈ (deleteThumbnail store id userId).1 → t ∈ store) ∧
    (∀ t, t ∈ (deleteThumbnail store id userId).1 → ¬(t.id = id ∧ t.userId = userId)) := by
  refine ⟨rfl, rfl, ?_, ?_, ?_⟩
  · intro t ht hne
    simp only [deleteThumbnail, findByIdAndDelete, List.mem_filter, decide_eq_true_eq]
    exact ⟨ht, fun hcontra => hne hcontra.2⟩
  · intro t ht
    simp only [deleteThumbnail, findByIdAndDelete, List.mem_filter] at ht
    exact ht.1
  · intro t ht
    simp only [deleteThumbnail, findByIdAndDelete, List.mem_filter, decide_eq_true_eq] at ht
    exact ht.2

/-- C7 (witness): deleting with a non-owner user id leaves the record
in place while still confirming success. -/
theorem deleteThumbnail_owner_scoped_idempotent_witness :
    (deleteThumbnail [⟨"t1", "alice"⟩] "t1" "mallory").2 = .deleted ∧
    ((deleteThumbnail [⟨"t1", "alice"⟩] "t1" "mallory").2).statusCode = 200 ∧
    (∀ t, t ∈ [(⟨"t1", "alice"⟩ : StoredThumb)] → t.userId ≠ "mallory" →
      t ∈ (deleteThumbnail [⟨"t1", "alice"⟩] "t1" "mallory").1) ∧
    (∀ t, t ∈ (deleteThumbnail [⟨"t1", "alice"⟩] "t1" "mallory").1 →
      t ∈ [(⟨"t1", "alice"⟩ : StoredThumb)]) ∧
    (∀ t, t ∈ (deleteThumbnail [⟨"t1", "alice"⟩] "t1" "mallory").1 →
      ¬(t.id = "t1" ∧ t.userId = "mallory")) :=
  deleteThumbnail_owner_scoped_idempotent [⟨"t1", "alice"⟩] "t1" "mallory"

/- ===================================================================
   Claim C8 — prompt composition order
   =================================================================== -/

/-- A key that the color table maps is not the empty string (so it is
truthy and the color branch of the composer is taken). -/
theorem colorKey_ne_empty {c cd : String}
    (h : List.lookup c colorSchemeDescriptions = some cd) : c ≠ "" := by
  intro he
  subst he
  have hnone : List.lookup "" colorSchemeDescriptions = none := by rfl
  rw [hnone] at h
  exact Option.noConfusion h

/-- C8: for a style in the style table, the composed prompt contains
the style description then the title (in that order), and when a color
scheme from the color table is given it also contains the color
description after them — the fixed concatenation order of the
composer. -/
theorem composePrompt_order (title style : String) (cs up ar : Option String) (sd : String)
    (hs : List.lookup style stylePrompts = some sd) :
    (∃ x y, composePrompt title style cs up ar =
      "Create a " ++ sd ++ x ++ title ++ y) ∧
    (∀ c cd, cs = some c → List.lookup c colorSchemeDescriptions = some cd →
      ∃ x y z, composePrompt title style cs up ar =
        "Create a " ++ sd ++ x ++ title ++ y ++ cd ++ z) := by
  constructor
  · by_cases hcol : jsTruthyStr cs = true <;> by_cases hup : jsTruthyStr up = true
    · refine ⟨" for: \"", "\" Use a " ++ jsTemplateOpt (jsLookupOpt cs colorSchemeDescriptions) ++
        " color scheme. Additional details: " ++ jsTemplateOpt up ++
        " The thumbnail should be " ++ jsTemplateOpt ar ++ ", visually stunning, and designed to maximize click-through rate. Make it bold, professional, and impossible to ignore.", ?_⟩
      simp only [composePrompt, hs, hcol, hup, if_true, jsTemplateOpt]
      simp [String.append_assoc]
    · refine ⟨" for: \"", "\" Use a " ++ jsTemplateOpt (jsLookupOpt cs colorSchemeDescriptions) ++
        " color scheme. The thumbnail should be " ++ jsTemplateOpt ar ++ ", visually stunning, and designed to maximize click-through rate. Make it bold, professional, and impossible to ignore.", ?_⟩
      simp only [composePrompt, hs, hcol, hup, if_true, Bool.false_eq_true, if_false,
        jsTemplateOpt]
      simp [String.append_assoc]
    · refine ⟨" for: \"", "\" Additional details: " ++ jsTemplateOpt up ++
        " The thumbnail should be " ++ jsTemplateOpt ar ++ ", visually stunning, and designed to maximize click-through rate. Make it bold, professional, and impossible to ignore.", ?_⟩
      simp only [composePrompt, hs, hcol, hup, if_true, Bool.false_eq_true, if_false,
        jsTemplateOpt]
      simp [String.append_assoc]
    · refine ⟨" for: \"", "\" The thumbnail should be " ++ jsTemplateOpt ar ++ ", visually stunning, and designed to maximize click-through rate. Make it bold, professional, and impossible to ignore.", ?_⟩
      simp only [composePrompt, hs, hcol, hup, Bool.false_eq_true, if_false, jsTemplateOpt]
      simp [String.append_assoc]
  · intro c cd hc hcd
    have hne : c ≠ "" := colorKey_ne_empty hcd
    have hcol : jsTruthyStr cs = true := by
      rw [hc]
      simp [jsTruthyStr, hne]
    have hlook : jsLookupOpt cs colorSchemeDescriptions = some cd := by
      rw [hc]
      simp [jsLookupOpt, hcd]
    by_cases hup : jsTruthyStr up = true
    · refine ⟨" for: \"", "\" Use a ", " color scheme. Additional details: " ++
        jsTemplateOpt up ++ " The thumbnail should be " ++ jsTemplateOpt ar ++ ", visually stunning, and designed to maximize click-through rate. Make it bold, professional, and impossible to ignore.", ?_⟩
      simp only [composePrompt, hs, hcol, hup, hlook, if_true, jsTemplateOpt]
      simp [String.append_assoc]
    · refine ⟨" for: \"", "\" Use a ", " color scheme. The thumbnail should be " ++
        jsTemplateOpt ar ++ ", visually stunning, and designed to maximize click-through rate. Make it bold, professional, and impossible to ignore.", ?_⟩
      simp only [composePrompt, hs, hcol, hup, hlook, if_true, Bool.false_eq_true, if_false,
        jsTemplateOpt]
      simp [String.append_assoc]

/-- C8 (witness): the ordered containment instantiated at a concrete
valid style/color pair. -/
theorem composePrompt_order_witness :
    ∃ x y z, composePrompt "T" "Minimalist" (some "neon") none (some "16:9") =
      "Create a " ++
        "minimalist thumbnail, clean layout, simple shapes, limited color palette, plenty of negative space, modern flat design, clear focal point" ++
        x ++ "T" ++ y ++
        "neon glow effects, electric blues and pinks, cyberpunk lighting, high contrast glow" ++ z :=
  (composePrompt_order "T" "Minimalist" (some "neon") none (some "16:9")
    "minimalist thumbnail, clean layout, simple shapes, limited color palette, plenty of negative space, modern flat design, clear focal point"
    rfl).2
    "neon"
    "neon glow effects, electric blues and pinks, cyberpunk lighting, high contrast glow"
    rfl rfl

/- ===================================================================
   Claim C9 — unknown style key
   =================================================================== -/

/-- C9 (counterexample): for a style key not in the style table the
composer does not fail — it silently produces a complete prompt with
the text `undefined` interpolated in place of the style description. -/
theorem composePrompt_unknown_style_counterexample :
    List.lookup "Vaporwave" stylePrompts = none ∧
    composePrompt "My Video" "Vaporwave" none none (some "16:9") =
      "Create a undefined for: \"My Video\" The thumbnail should be 16:9, visually stunning, and designed to maximize click-through rate. Make it bold, professional, and impossible to ignore." :=
  ⟨rfl, rfl⟩

/-- C9 (amended): for every style key not in the style table the
composer silently produces a malformed prompt beginning
`Create a undefined for: "` (JS interpolation of the `undefined`
lookup), instead of signalling an error. -/
theorem composePrompt_unknown_style_silent (title style : String)
    (cs up ar : Option String)
    (hs : List.lookup style stylePrompts = none) :
    ∃ rest, composePrompt title style cs up ar = "Create a undefined for: \"" ++ rest := by
  by_cases hcol : jsTruthyStr cs = true <;> by_cases hup : jsTruthyStr up = true
  · refine ⟨title ++ "\" Use a " ++ jsTemplateOpt (jsLookupOpt cs colorSchemeDescriptions) ++
      " color scheme. Additional details: " ++ jsTemplateOpt up ++
      " The thumbnail should be " ++ jsTemplateOpt ar ++
      ", visually stunning, and designed to maximize click-through rate. Make it bold, professional, and impossible to ignore.", ?_⟩
    simp only [composePrompt, hs, hcol, hup, if_true, jsTemplateOpt]
    simp [String.append_assoc]
  · refine ⟨title ++ "\" Use a " ++ jsTemplateOpt (jsLookupOpt cs colorSchemeDescriptions) ++
      " color scheme. The thumbnail should be " ++ jsTemplateOpt ar ++
      ", visually stunning, and designed to maximize click-through rate. Make it bold, professional, and impossible to ignore.", ?_⟩
    simp only [composePrompt, hs, hcol, hup, if_true, Bool.false_eq_true, if_false,
      jsTemplateOpt]
    simp [String.append_assoc]
  · refine ⟨title ++ "\" Additional details: " ++ jsTemplateOpt up ++
      " The thumbnail should be " ++ jsTemplateOpt ar ++
      ", visually stunning, and designed to maximize click-through rate. Make it bold, professional, and impossible to ignore.", ?_⟩
    simp only [composePrompt, hs, hcol, hup, if_true, Bool.false_eq_true, if_false,
      jsTemplateOpt]
    simp [String.append_assoc]
  · refine ⟨title ++ "\" The thumbnail should be " ++ jsTemplateOpt ar ++
      ", visually stunning, and designed to maximize click-through rate. Make it bold, professional, and impossible to ignore.", ?_⟩
    simp only [composePrompt, hs, hcol, hup, Bool.false_eq_true, if_false, jsTemplateOpt]
    simp [String.append_assoc]

/-- C9 (witness): the silent malformed prompt at a concrete unknown
style key. -/
theorem composePrompt_unknown_style_silent_witness :
    ∃ rest, composePrompt "My Video" "Vaporwave" none none (some "16:9") =
      "Create a undefined for: \"" ++ rest :=
  composePrompt_unknown_style_silent "My Video" "Vaporwave" none none (some "16:9") rfl

/- ===================================================================
   Claim C10 — the SDK controller never finalizes on failure
   =================================================================== -/

/-- C10: in the SDK controller, every exception thrown after the
pending record is created (inference rejection, upload rejection, or a
failing final save) reaches only the catch that replies 500: the
persisted record is left with `isGenerating = true` and no image URL. -/
theorem sdkGenerateThumbnail_exception_leaves_pending (env : SdkEnv)
    (hc : env.createFail = none)
    (h : (∃ m, env.inference (sdkPromptOf env) = .error m) ∨
      (∃ b, env.inference (sdkPromptOf env) = .ok b ∧
        ((∃ m, env.upload b = .error m) ∨
          ((∃ u, env.upload b = .ok u) ∧ env.saveFail.isSome = true)))) :
    (sdkGenerateThumbnail env).record = some (sdkCreatedRecord env) ∧
    (sdkCreatedRecord env).isGenerating = true ∧
    (sdkCreatedRecord env).image_url = none ∧
    ((sdkGenerateThumbnail env).response).statusCode = 500 := by
  rcases h with ⟨m, hinf⟩ | ⟨b, hinf, ⟨m, hup⟩ | ⟨⟨u, hup⟩, hsave⟩⟩
  · refine ⟨?_, rfl, rfl, ?_⟩ <;> simp [sdkGenerateThumbnail, hc, hinf, Response.statusCode]
  · refine ⟨?_, rfl, rfl, ?_⟩ <;> simp [sdkGenerateThumbnail, hc, hinf, hup, Response.statusCode]
  · cases hs : env.saveFail with
    | none => rw [hs] at hsave; exact absurd hsave (by simp)
    | some msg =>
      refine ⟨?_, rfl, rfl, ?_⟩ <;> simp [sdkGenerateThumbnail, hc, hinf, hup, hs, Response.statusCode]

/-- A concrete SDK-controller request whose inference call rejects. -/
def sdkFailEnv : SdkEnv :=
  { userId := "user-1"
    title := "My Title"
    user_prompt := none
    style := "Minimalist"
    aspect_ratio := some "16:9"
    color_scheme := none
    text_overlay := none
    createFail := none
    inference := fun _ => .error "inference failed"
    upload := fun _ => .ok "https://cdn.example/y.png"
    saveFail := none }

/-- C10 (witness): the concrete failing inference leaves the record
pending while the handler replies 500. -/
theorem sdkGenerateThumbnail_exception_leaves_pending_witness :
    (sdkGenerateThumbnail sdkFailEnv).record = some (sdkCreatedRecord sdkFailEnv) ∧
    (sdkCreatedRecord sdkFailEnv).isGenerating = true ∧
    (sdkCreatedRecord sdkFailEnv).image_url = none ∧
    ((sdkGenerateThumbnail sdkFailEnv).response).statusCode = 500 :=
  sdkGenerateThumbnail_exception_leaves_pending sdkFailEnv rfl
    (Or.inl ⟨"inference failed", rfl⟩)
